import Mathlib

/-!
Verification development for the wardwell domain-boundary and path-security
engine.  The Rust sources under `src/domain/path.rs`, `src/config/types.rs`,
`src/domain/boundary.rs`, `src/domain/model.rs`, `src/domain/registry.rs` and
`src/alias/resolver.rs` are shallowly embedded below.  Filesystem effects
(`File::open`, `std::fs::canonicalize`, `fstat`) are abstracted into an `FS`
record of functions; the `HOME` environment variable is an `Option String`
parameter.  Rust string operations are modelled on `List Char`: every
byte-level search in the source uses a needle whose first byte is not a UTF-8
continuation byte, so byte offsets and character offsets identify the same
occurrences.  String primitives (`split`, `starts_with`, `trim`, ...) are
re-implemented structurally so that every definition evaluates by kernel
reduction.
-/

namespace Wardwell

/-- Model of `str::split(sep)` for a one-character separator. -/
def splitOnChar (sep : Char) : List Char → List (List Char)
  | [] => [[]]
  | c :: rest =>
    match splitOnChar sep rest with
    | [] => [[c]]
    | h :: t => if c = sep then [] :: h :: t else (c :: h) :: t

/-- String-level wrapper for `splitOnChar`. -/
def splitStr (sep : Char) (s : String) : List String :=
  (splitOnChar sep s.data).map String.mk

/-- Model of `str::starts_with` on strings. -/
def strStartsWith (s p : String) : Bool :=
  p.data.isPrefixOf s.data

/-- Model of `str::ends_with` on strings. -/
def strEndsWith (s p : String) : Bool :=
  p.data.reverse.isPrefixOf s.data.reverse

/-- Model of `str::trim` (whitespace at both ends). -/
def strTrim (s : String) : String :=
  String.mk (((s.data.dropWhile Char.isWhitespace).reverse.dropWhile Char.isWhitespace).reverse)

/-- Model of dropping the first `n` characters of a string. -/
def strDrop (s : String) (n : Nat) : String :=
  String.mk (s.data.drop n)

/-- Model of `Vec::join(sep)` on strings. -/
def joinWith (sep : String) : List String → String
  | [] => ""
  | [x] => x
  | x :: y :: t => x ++ sep ++ joinWith sep (y :: t)

/-- Model of `str::find` for a substring needle: index of the first occurrence. -/
def findSub (hay needle : List Char) : Option Nat :=
  (List.range (hay.length + 1)).find? (fun i => needle.isPrefixOf (hay.drop i))

/-- Model of `str::contains` for substrings. -/
def containsSub (hay needle : List Char) : Bool :=
  (findSub hay needle).isSome

/-- Model of `str[start..].find(c)` shifted back by `start`. -/
def findCharFrom (hay : List Char) (start : Nat) (c : Char) : Option Nat :=
  (findSub (hay.drop start) [c]).map (fun j => start + j)

/-- Model of Rust `str::to_lowercase`.  Per-character lowering; every pattern
the source compares against is ASCII apart from U+FF0E and U+2025 (which have
no case), so per-character ASCII lowering agrees with Rust on all comparisons
performed by the embedded code. -/
def lowerStr (s : String) : String :=
  String.mk (s.data.map Char.toLower)

/-- Model of `str::trim_end_matches('/')`: drop every trailing slash. -/
def trimTrailingSlashes (s : String) : String :=
  String.mk ((s.data.reverse.dropWhile (fun c => c = '/')).reverse)

/-- One component of a Rust `std::path::Path`, as produced by `Path::components`. -/
inductive PathComp where
  | rootDir
  | curDir
  | parentDir
  | normal (s : String)
deriving DecidableEq

/-- Classify one non-empty, non-"." path chunk. -/
def compOf (c : String) : PathComp :=
  if c = ".." then PathComp.parentDir else PathComp.normal c

/-- Model of `Path::components` on Unix: split on `/`, drop empty chunks,
drop `.` chunks except a leading one of a relative path, keep a leading
root component for absolute paths. -/
def pathComponents (s : String) : List PathComp :=
  let raw := (splitStr '/' s).filter (fun c => c ≠ "")
  if strStartsWith s "/" then
    PathComp.rootDir :: (raw.filter (fun c => c ≠ ".")).map compOf
  else
    match raw with
    | [] => []
    | c :: rest =>
      if c = "." then PathComp.curDir :: (rest.filter (fun x => x ≠ ".")).map compOf
      else (raw.filter (fun x => x ≠ ".")).map compOf

/-- Model of `Path::starts_with`: component-wise prefix test. -/
def pathStartsWith (p base : String) : Bool :=
  (pathComponents base).isPrefixOf (pathComponents p)

/-- Model of `PathBuf::join`: an absolute right side replaces the left side,
otherwise a separator is inserted when needed. -/
def pathJoin (a b : String) : String :=
  if strStartsWith b "/" then b
  else if a = "" then b
  else if strEndsWith a "/" then a ++ b
  else a ++ "/" ++ b

/-- Error type of `src/domain/path.rs` (`PathError`), with `std::io::Error`
payloads modelled as their display strings. -/
inductive PathError where
  | Resolution (path : String) (source : String)
  | ResolutionFailed (path : String) (reason : String)
  | DangerousPath (path : String) (reason : String)
  | OutsideBoundary (path : String) (boundary : String)
  | TraversalDetected (path : String) (reason : String)
  | ReadFailed (path : String) (reason : String)
deriving DecidableEq

/-- Display strings of `PathError` as generated by the `thiserror` attributes. -/
def PathError.message : PathError → String
  | .Resolution p s => "path resolution failed for '" ++ p ++ "': " ++ s
  | .ResolutionFailed p r => "path resolution failed for '" ++ p ++ "': " ++ r
  | .DangerousPath p r => "dangerous path detected: '" ++ p ++ "' — " ++ r
  | .OutsideBoundary p b => "path '" ++ p ++ "' is outside domain boundary (" ++ b ++ ")"
  | .TraversalDetected p r => "TOCTOU traversal detected for '" ++ p ++ "': " ++ r
  | .ReadFailed p r => "failed to read file '" ++ p ++ "': " ++ r

/-- The `DANGEROUS_PATTERNS` table of `src/domain/path.rs`, in source order,
including the duplicated `%2e%2e/` entry. -/
def DANGEROUS_PATTERNS : List (String × String) :=
  [ ("../", "directory traversal"),
    ("..\\", "directory traversal (backslash)"),
    ("%2e%2e", "URL-encoded traversal (lowercase)"),
    ("%2E%2E", "URL-encoded traversal (uppercase)"),
    ("%2e%2e%2f", "URL-encoded traversal with slash (lowercase)"),
    ("%2e%2e%5c", "URL-encoded traversal with backslash"),
    ("%2e%2e/", "URL-encoded dots with raw slash"),
    ("%2e%2e\\", "URL-encoded dots with raw backslash"),
    ("%252e%252e", "double-encoded traversal"),
    ("..%2f", "mixed traversal (dots + encoded slash)"),
    ("..%5c", "mixed traversal (dots + encoded backslash)"),
    ("%2e%2e/", "mixed traversal (encoded dots + raw slash)"),
    ("\x00", "null byte injection"),
    ("%00", "URL-encoded null byte"),
    ("．．/", "fullwidth period traversal"),
    ("．．\\", "fullwidth period traversal (backslash)"),
    ("‥", "two-dot leader (unicode traversal)") ]

/-- Embedding of `check_dangerous_patterns`: lowercase the raw string, then
scan the table in order for a contained (lowercased) pattern.  The function is
pure — it takes no filesystem argument, mirroring that the source performs no
filesystem access here. -/
def check_dangerous_patterns (path_str : String) : Except PathError Unit :=
  let lowered := lowerStr path_str
  match DANGEROUS_PATTERNS.find? (fun pr => containsSub lowered.data (lowerStr pr.1).data) with
  | some pr => Except.error (PathError.DangerousPath path_str pr.2)
  | none => Except.ok ()

/-- Abstract filesystem, capturing the OS calls the embedded code performs.
`canonicalize` models `std::fs::canonicalize`; `openFile` models `File::open`
(returning an opaque handle); `handleMeta` models `File::metadata` on a handle
and `pathMeta` models `std::fs::metadata` on a path, both returning the
`(dev, ino)` identity.  Errors are the `io::Error` display strings. -/
structure FS where
  canonicalize : String → Except String String
  openFile : String → Except String Nat
  handleMeta : Nat → Except String (Nat × Nat)
  pathMeta : String → Except String (Nat × Nat)

/-- One token of a compiled `glob::Pattern`. -/
inductive GlobToken where
  | lit (c : Char)
  | anyChar
  | anySeq
deriving DecidableEq

/-- Compilation of a glob pattern string into tokens.  Models `glob::Pattern`
for the patterns `PathGlob::new` admits: `?` matches one character, `*` (and a
`**` component) matches any character sequence — under the crate's default
`MatchOptions`, `require_literal_separator` is false so sequences span `/`.
Character classes are not used by this repository's globs and are treated
literally. -/
def globTokensOf : List Char → List GlobToken
  | [] => []
  | '*' :: '*' :: rest => GlobToken.anySeq :: globTokensOf rest
  | '*' :: rest => GlobToken.anySeq :: globTokensOf rest
  | '?' :: rest => GlobToken.anyChar :: globTokensOf rest
  | c :: rest => GlobToken.lit c :: globTokensOf rest

/-- Backtracking matcher for glob tokens.  The fuel only bounds recursion
depth so the definition is structural; each call shortens the token list or
the character list, so depth is at most `tokens + chars + 1` and the fuel
supplied by `globMatch` is never exhausted. -/
def matchTokensFuel : Nat → List GlobToken → List Char → Bool
  | 0, _, _ => false
  | _ + 1, [], [] => true
  | _ + 1, [], _ :: _ => false
  | _ + 1, GlobToken.lit _ :: _, [] => false
  | fuel + 1, GlobToken.lit c :: ts, d :: ds => c == d && matchTokensFuel fuel ts ds
  | _ + 1, GlobToken.anyChar :: _, [] => false
  | fuel + 1, GlobToken.anyChar :: ts, _ :: ds => matchTokensFuel fuel ts ds
  | fuel + 1, GlobToken.anySeq :: ts, [] => matchTokensFuel fuel ts []
  | fuel + 1, GlobToken.anySeq :: ts, d :: ds =>
    matchTokensFuel fuel ts (d :: ds) || matchTokensFuel fuel (GlobToken.anySeq :: ts) ds

/-- Model of `glob::Pattern::new(pat).matches_path(path)` with default options. -/
def globMatch (patternStr path : String) : Bool :=
  let ts := globTokensOf patternStr.data
  matchTokensFuel (ts.length + path.data.length + 1) ts path.data

/-- Embedding of `PathGlob` (`src/config/types.rs`): a validated glob pattern
string. -/
structure PathGlob where
  pattern : String
deriving DecidableEq

/-- Embedding of `PathGlob::expand`: expand a `~/` prefix against `HOME`. -/
def PathGlob.expand (home : Option String) (g : PathGlob) : String :=
  if strStartsWith g.pattern "~/" then
    match home with
    | some h => pathJoin h (strDrop g.pattern 2)
    | none => g.pattern
  else g.pattern

/-- Embedding of `PathGlob::matches`: glob semantics on the expanded pattern,
then component-wise prefix against the literal base (text before the first
`*`, trailing slashes trimmed), then the same against the canonicalized base. -/
def PathGlob.matches (fs : FS) (home : Option String) (g : PathGlob) (path : String) : Bool :=
  let patternStr := g.expand home
  if globMatch patternStr path then true
  else
    let base := (splitStr '*' patternStr).headD patternStr
    let base_path := trimTrailingSlashes base
    if pathStartsWith path base_path then true
    else
      match fs.canonicalize base_path with
      | Except.ok canonical_base => pathStartsWith path canonical_base
      | Except.error _ => false

/-- Embedding of `safe_open` (`src/domain/path.rs`): pattern check on the raw
string, open, canonicalize, device+inode comparison between the open handle
and the canonical path, then the boundary-glob test on the canonical path. -/
def safe_open (fs : FS) (home : Option String) (path : String) (boundaries : List PathGlob) :
    Except PathError Nat :=
  match check_dangerous_patterns path with
  | Except.error e => Except.error e
  | Except.ok _ =>
    match fs.openFile path with
    | Except.error e => Except.error (PathError.ResolutionFailed path e)
    | Except.ok file =>
      match fs.canonicalize path with
      | Except.error e =>
        Except.error (PathError.ResolutionFailed path ("canonicalization failed: " ++ e))
      | Except.ok canonical =>
        match fs.handleMeta file with
        | Except.error e => Except.error (PathError.ResolutionFailed path e)
        | Except.ok fdMeta =>
          match fs.pathMeta canonical with
          | Except.error e => Except.error (PathError.ResolutionFailed path e)
          | Except.ok canonicalMeta =>
            if fdMeta.1 ≠ canonicalMeta.1 ∨ fdMeta.2 ≠ canonicalMeta.2 then
              Except.error (PathError.TraversalDetected path
                "fd does not match canonical path (device/inode mismatch — possible TOCTOU attack)")
            else if boundaries.any (fun b => b.matches fs home canonical) then
              Except.ok file
            else
              Except.error (PathError.OutsideBoundary canonical
                (joinWith ", " (boundaries.map PathGlob.pattern)))

/-- Filesystem instance for the C1 witness: one file `/v/a.txt` with identity
`(1, 1)` visible both through the open handle and the canonical path. -/
def fs1 : FS where
  canonicalize := fun p =>
    if p = "/v/a.txt" then Except.ok "/v/a.txt"
    else Except.error "No such file or directory (os error 2)"
  openFile := fun p =>
    if p = "/v/a.txt" then Except.ok 7
    else Except.error "No such file or directory (os error 2)"
  handleMeta := fun h =>
    if h = 7 then Except.ok (1, 1) else Except.error "bad handle"
  pathMeta := fun p =>
    if p = "/v/a.txt" then Except.ok (1, 1)
    else Except.error "No such file or directory (os error 2)"

/-- Filesystem instance for the C5 witness: nothing exists, every OS call
fails with a not-found error. -/
def fs5 : FS where
  canonicalize := fun _ => Except.error "No such file or directory (os error 2)"
  openFile := fun _ => Except.error "No such file or directory (os error 2)"
  handleMeta := fun _ => Except.error "No such file or directory (os error 2)"
  pathMeta := fun _ => Except.error "No such file or directory (os error 2)"

/-- Embedding of `Domain` (`src/domain/model.rs`): name, boundary globs,
alias map (as an association list) and cross-domain read grants. -/
structure Domain where
  name : String
  paths : List PathGlob
  aliases : List (String × String)
  can_read : List String
deriving DecidableEq

/-- Embedding of `Domain::path_allowed`: some boundary glob matches. -/
def Domain.path_allowed (d : Domain) (fs : FS) (home : Option String) (path : String) : Bool :=
  d.paths.any (fun g => g.matches fs home path)

/-- Embedding of `resolve_path` (`src/domain/path.rs`): canonicalize via the
OS, wrapping failures in `PathError::Resolution`. -/
def resolve_path (fs : FS) (path : String) : Except PathError String :=
  match fs.canonicalize path with
  | Except.ok p => Except.ok p
  | Except.error e => Except.error (PathError.Resolution path e)

/-- Result type of the boundary enforcer (`src/domain/boundary.rs`). -/
inductive EnforcementResult where
  | Allow
  | Block (reason : String)
deriving DecidableEq

/-- Embedding of `BoundaryEnforcer::check_path`: dangerous-pattern check on
the raw string, canonicalization, then the domain's boundary test on the
canonical path. -/
def check_path (fs : FS) (home : Option String) (domain : Domain) (path_str : String) :
    EnforcementResult :=
  match check_dangerous_patterns path_str with
  | Except.error e => EnforcementResult.Block e.message
  | Except.ok _ =>
    match resolve_path fs path_str with
    | Except.error e => EnforcementResult.Block ("path resolution failed: " ++ e.message)
    | Except.ok canonical =>
      if domain.path_allowed fs home canonical then EnforcementResult.Allow
      else
        EnforcementResult.Block ("path '" ++ path_str ++
          "' is outside domain boundary (resolved: '" ++ canonical ++ "')")

/-- The per-domain test of `DomainRegistry::resolve`: some glob's literal
base (text before the first `*`, trailing slashes trimmed, home-expanded) is
a `Path::starts_with` prefix of `cwd`. -/
def domainMatchesCwd (home : Option String) (d : Domain) (cwd : String) : Bool :=
  d.paths.any (fun p =>
    let expanded := p.expand home
    let base_dir := trimTrailingSlashes ((splitStr '*' expanded).headD expanded)
    pathStartsWith cwd base_dir)

/-- Embedding of `DomainRegistry::resolve`: first domain, in registration
order, whose glob base contains the working directory. -/
def DomainRegistry.resolve (home : Option String) (domains : List Domain) (cwd : String) :
    Option Domain :=
  domains.find? (fun d => domainMatchesCwd home d cwd)

/-- File types of vault files (`src/vault/types.rs`). -/
inductive VaultType where
  | Project
  | Decision
  | Insight
  | Thread
  | Domain
  | Reference
deriving DecidableEq

/-- Confidence levels of vault files (`src/vault/types.rs`). -/
inductive Confidence where
  | Inferred
  | Proposed
  | Confirmed
deriving DecidableEq

/-- Frontmatter of a vault file, restricted to the fields the domain model
and registry consult (`status`, `updated`, `summary`, `related` and `tags`
are never read by the embedded functions). -/
structure Frontmatter where
  file_type : VaultType
  domain : Option String
  confidence : Option Confidence
  can_read : List String
deriving DecidableEq

/-- A parsed vault file (`src/vault/types.rs`). -/
structure VaultFile where
  path : String
  frontmatter : Frontmatter
  body : String
deriving DecidableEq

/-- Construction-time validation errors (`src/config/types.rs`), restricted
to the variants the embedded functions produce. -/
inductive ConfigError where
  | InvalidDomainName (name : String) (reason : String)
  | InvalidPathGlob (pattern : String) (reason : String)
deriving DecidableEq

/-- Embedding of `DomainName::new`: trim, reject empty names and names with
path separators. -/
def DomainName.new (name : String) : Except ConfigError String :=
  let trimmed := strTrim name
  if trimmed = "" then
    Except.error (ConfigError.InvalidDomainName name "domain name cannot be empty")
  else if trimmed.data.any (fun c => c == '/' || c == '\\') then
    Except.error (ConfigError.InvalidDomainName name "domain name cannot contain path separators")
  else Except.ok trimmed

/-- Embedding of `PathGlob::new`: trim and reject empty patterns.  The
`glob::Pattern::new` syntax validation is abstracted as always succeeding;
every pattern exercised in this development is syntactically valid. -/
def PathGlob.new (pattern : String) : Except ConfigError PathGlob :=
  let trimmed := strTrim pattern
  if trimmed = "" then
    Except.error (ConfigError.InvalidPathGlob pattern "path glob cannot be empty")
  else Except.ok (PathGlob.mk trimmed)

/-- Model of `Path::file_name`: the last normal component. -/
def fileName (s : String) : Option String :=
  match ((splitStr '/' s).filter (fun c => c ≠ "" ∧ c ≠ ".")).getLast? with
  | some c => if c = ".." then none else some c
  | none => none

/-- Model of extracting the extension from a file name: text after the last
dot, unless the only dot is the leading one of a hidden file. -/
def fileExtension (fname : String) : Option String :=
  match splitStr '.' fname with
  | [] => none
  | [_] => none
  | first :: rest =>
    if first = "" ∧ rest.length = 1 then none
    else rest.getLast?

/-- Model of `Path::file_stem` on a file name: text before the last dot,
with the hidden-file exception. -/
def fileStem (fname : String) : String :=
  match splitStr '.' fname with
  | [] => fname
  | [_] => fname
  | first :: rest =>
    if first = "" ∧ rest.length = 1 then fname
    else joinWith "." (first :: rest.dropLast)

/-- Model of `Path::extension`. -/
def pathExtension (path : String) : Option String :=
  match fileName path with
  | some f => fileExtension f
  | none => none

/-- Model of `Path::file_stem`. -/
def pathFileStem (path : String) : Option String :=
  (fileName path).map fileStem

/-- Model of `str::lines`: split on newlines, drop a final empty chunk and a
trailing carriage return on each line. -/
def strLines (s : String) : List String :=
  let ls := splitStr '\n' s
  let ls := if ls.getLast? = some "" then ls.dropLast else ls
  ls.map (fun l => if strEndsWith l "\r" then String.mk l.data.dropLast else l)

/-- Model of `HashMap::insert` on an association list: replace the value of
an existing key, otherwise append. -/
def insertAssoc (l : List (String × String)) (k v : String) : List (String × String) :=
  if l.any (fun p => p.1 == k) then l.map (fun p => if p.1 == k then (k, v) else p)
  else l ++ [(k, v)]

/-- Model of `str::split_once`: cut at the first occurrence of `sep`. -/
def splitOnceSub (s sep : String) : Option (String × String) :=
  match findSub s.data sep.data with
  | none => none
  | some i => some (String.mk (s.data.take i), String.mk (s.data.drop (i + sep.data.length)))

/-- The body-parsing loop of `Domain::from_vault_file`: track the current
`##` section, collect `- ` bullets into paths or `key: value` aliases. -/
def domainBodyLoop : Option String → List PathGlob → List (String × String) → List String →
    List PathGlob × List (String × String)
  | _, ps, al, [] => (ps, al)
  | sec, ps, al, line :: rest =>
    if strStartsWith line "## Paths" then domainBodyLoop (some "paths") ps al rest
    else if strStartsWith line "## Aliases" then domainBodyLoop (some "aliases") ps al rest
    else if strStartsWith line "## " then domainBodyLoop none ps al rest
    else
      let trimmed := strTrim line
      if trimmed = "" ∨ strStartsWith trimmed "- " = false then domainBodyLoop sec ps al rest
      else
        let item := strDrop trimmed 2
        match sec with
        | some "paths" =>
          match PathGlob.new item with
          | Except.ok g => domainBodyLoop sec (ps ++ [g]) al rest
          | Except.error _ => domainBodyLoop sec ps al rest
        | some "aliases" =>
          match splitOnceSub item ": " with
          | some kv => domainBodyLoop sec ps (insertAssoc al (strTrim kv.1) (strTrim kv.2)) rest
          | none => domainBodyLoop sec ps al rest
        | _ => domainBodyLoop sec ps al rest

/-- Embedding of `Domain::from_vault_file`: require `type: domain` and
`confidence: confirmed`, take the name from the `domain` field or the file
stem, and parse `## Paths` / `## Aliases` bullets from the body. -/
def Domain.from_vault_file (vf : VaultFile) : Except ConfigError Domain :=
  if vf.frontmatter.file_type ≠ VaultType.Domain then
    Except.error (ConfigError.InvalidDomainName vf.path "not a domain vault file")
  else if vf.frontmatter.confidence ≠ some Confidence.Confirmed then
    Except.error (ConfigError.InvalidDomainName vf.path "domain not confirmed")
  else
    let name_str := vf.frontmatter.domain.getD ((pathFileStem vf.path).getD "")
    match DomainName.new name_str with
    | Except.error e => Except.error e
    | Except.ok name =>
      let pa := domainBodyLoop none [] [] (strLines vf.body)
      Except.ok { name := name, paths := pa.1, aliases := pa.2, can_read := vf.frontmatter.can_read }

/-- The per-entry body of the `DomainRegistry::from_vault` loop: skip
non-`.md` entries, unreadable files, non-domain types, unconfirmed files and
failed constructions; otherwise yield the built domain.  The vault reader
(`read_file`) is abstracted as a function from paths to parsed vault files. -/
def from_vault_step (readVaultFile : String → Except String VaultFile) (path : String) :
    Option Domain :=
  if pathExtension path ≠ some "md" then none
  else
    match readVaultFile path with
    | Except.error _ => none
    | Except.ok vf =>
      if vf.frontmatter.file_type ≠ VaultType.Domain then none
      else if vf.frontmatter.confidence ≠ some Confidence.Confirmed then none
      else
        match Domain.from_vault_file vf with
        | Except.ok d => some d
        | Except.error _ => none

/-- Embedding of the `DomainRegistry::from_vault` loop over the directory
listing of `vault_root/domains` (a missing or unreadable directory yields the
empty listing in the source and hence the empty registry). -/
def from_vault_domains (readVaultFile : String → Except String VaultFile) :
    List String → List Domain
  | [] => []
  | p :: rest =>
    match from_vault_step readVaultFile p with
    | some d => d :: from_vault_domains readVaultFile rest
    | none => from_vault_domains readVaultFile rest

/-- Well-formed confirmed domain file for the C6 witness. -/
def vfGood : VaultFile :=
  { path := "/vault/domains/testdomain.md",
    frontmatter := { file_type := VaultType.Domain, domain := some "testdomain",
                     confidence := some Confidence.Confirmed, can_read := [] },
    body := "## Paths\n- /tmp/test/*\n\n## Aliases\n- code: /tmp/test\n" }

/-- Well-formed but only inferred domain file for the C6 witness. -/
def vfInferred : VaultFile :=
  { path := "/vault/domains/inferred.md",
    frontmatter := { file_type := VaultType.Domain, domain := some "inferred",
                     confidence := some Confidence.Inferred, can_read := [] },
    body := "## Paths\n- /tmp/inferred/*\n" }

/-- Vault reader for the C6 witness: two files, nothing else. -/
def rv6 : String → Except String VaultFile := fun p =>
  if p = "/vault/domains/testdomain.md" then Except.ok vfGood
  else if p = "/vault/domains/inferred.md" then Except.ok vfInferred
  else Except.error "No such file or directory (os error 2)"

/-- The domain the C6 witness expects `from_vault` to build from `vfGood`. -/
def dTest : Domain :=
  { name := "testdomain", paths := [PathGlob.mk "/tmp/test/*"],
    aliases := [("code", "/tmp/test")], can_read := [] }

/-- Concrete domain for the C4 witness. -/
def d1 : Domain := { name := "test", paths := [PathGlob.mk "/v/*"], aliases := [], can_read := [] }

/-- Concrete domains for the C9 witness. -/
def dWork : Domain :=
  { name := "work", paths := [PathGlob.mk "/tmp/work/*"], aliases := [], can_read := [] }

/-- Second concrete domain for the C9 witness. -/
def dPersonal : Domain :=
  { name := "personal", paths := [PathGlob.mk "/tmp/personal/*"], aliases := [], can_read := [] }

/-- Error type of `src/alias/resolver.rs` (`AliasError`). -/
inductive AliasError where
  | UnknownAlias (name : String)
  | UnknownDomain (name : String)
  | OutsideBoundary (path : String)
  | ExpansionFailed (path : String) (reason : String)
deriving DecidableEq

/-- Embedding of the resolver's `expand_home` helper: expand a `~/` prefix
via `PathBuf::join` against `HOME`. -/
def expand_home (home : Option String) (path : String) : String :=
  if strStartsWith path "~/" then
    match home with
    | some h => pathJoin h (strDrop path 2)
    | none => path
  else path

/-- Embedding of the resolver's `glob_base` helper: expand `~/` by plain
string formatting, cut at the first `*`, trim trailing slashes. -/
def glob_base (home : Option String) (g : String) : String :=
  let expanded :=
    if strStartsWith g "~/" then
      match home with
      | some h => h ++ "/" ++ strDrop g 2
      | none => g
    else g
  trimTrailingSlashes ((splitStr '*' expanded).headD expanded)

/-- Lookup in an association list, modelling `HashMap::get` for maps with
distinct keys. -/
def lookupAssoc (l : List (String × String)) (k : String) : Option String :=
  (l.find? (fun p => p.1 == k)).map Prod.snd

/-- Embedding of `AliasResolver`: pre-expanded aliases, the domain-root map
and the expanded glob bases used by the boundary check. -/
structure AliasResolver where
  aliases : List (String × String)
  domain_roots : List (String × String)
  domain_paths : List String
deriving DecidableEq

/-- Embedding of `AliasResolver::new`: expand every alias value for `~/`,
collect each glob's expanded base into `domain_paths`, and map the domain
name to the first glob's base (`entry(..).or_insert` only inserts once). -/
def AliasResolver.new (home : Option String) (aliases : List (String × String))
    (domain_name : String) (domain_path_globs : List String) : AliasResolver :=
  { aliases := aliases.map (fun p => (p.1, expand_home home p.2)),
    domain_roots :=
      match domain_path_globs with
      | [] => []
      | g :: _ => [(domain_name, expand_home home (glob_base home g))],
    domain_paths := domain_path_globs.map (fun g => expand_home home (glob_base home g)) }

/-- The `\x7balias:NAME\x7d` token opener. -/
def aliasTok : String := "\x7balias:"

/-- The `\x7bdomain:NAME\x7d` token opener. -/
def domainTok : String := "\x7bdomain:"

/-- The closing brace character. -/
def closeBrace : Char := Char.ofNat 125

/-- The alias-expansion `while` loop of `AliasResolver::resolve`: find the
first alias token, require a closing brace (else `ExpansionFailed` naming the
original input), look the name up (else `UnknownAlias`), splice in the alias
path and repeat.  The fuel only models the loop's termination: `none` stands
for a diverging loop (possible in the source only when an alias value itself
contains an opener), and every theorem below supplies sufficient fuel. -/
def expandAliasLoop (aliases : List (String × String)) (orig : String) :
    Nat → String → Option (Except AliasError String)
  | 0, _ => none
  | fuel + 1, s =>
    match findSub s.data aliasTok.data with
    | none => some (Except.ok s)
    | some start =>
      match findCharFrom s.data start closeBrace with
      | none => some (Except.error (AliasError.ExpansionFailed orig
          "unclosed \x7balias:...\x7d reference"))
      | some stop =>
        let name := String.mk ((s.data.drop (start + 7)).take (stop - (start + 7)))
        match lookupAssoc aliases name with
        | none => some (Except.error (AliasError.UnknownAlias name))
        | some alias_path =>
          expandAliasLoop aliases orig fuel
            (String.mk (s.data.take start ++ alias_path.data ++ s.data.drop (stop + 1)))

/-- The domain-expansion `while` loop of `AliasResolver::resolve`, run after
the alias loop; identical shape with an 8-character opener. -/
def expandDomainLoop (domain_roots : List (String × String)) (orig : String) :
    Nat → String → Option (Except AliasError String)
  | 0, _ => none
  | fuel + 1, s =>
    match findSub s.data domainTok.data with
    | none => some (Except.ok s)
    | some start =>
      match findCharFrom s.data start closeBrace with
      | none => some (Except.error (AliasError.ExpansionFailed orig
          "unclosed \x7bdomain:...\x7d reference"))
      | some stop =>
        let name := String.mk ((s.data.drop (start + 8)).take (stop - (start + 8)))
        match lookupAssoc domain_roots name with
        | none => some (Except.error (AliasError.UnknownDomain name))
        | some domain_root =>
          expandDomainLoop domain_roots orig fuel
            (String.mk (s.data.take start ++ domain_root.data ++ s.data.drop (stop + 1)))

/-- Embedding of `AliasResolver::check_boundary`: succeed with no configured
domain paths, otherwise require some domain path to contain the path
(directly, or after canonicalizing both sides). -/
def AliasResolver.check_boundary (fs : FS) (r : AliasResolver) (path : String) :
    Except AliasError Unit :=
  if r.domain_paths.isEmpty then Except.ok ()
  else if r.domain_paths.any (fun dp =>
      pathStartsWith path dp ||
      (match fs.canonicalize dp, fs.canonicalize path with
       | Except.ok cd, Except.ok cp => pathStartsWith cp cd
       | _, _ => false)) then Except.ok ()
  else Except.error (AliasError.OutsideBoundary path)

/-- Embedding of `AliasResolver::resolve`: alias loop, then domain loop, then
`~/` expansion, then the boundary check. -/
def AliasResolver.resolve (fuel : Nat) (fs : FS) (home : Option String) (r : AliasResolver)
    (path_str : String) : Option (Except AliasError String) :=
  match expandAliasLoop r.aliases path_str fuel path_str with
  | none => none
  | some (Except.error e) => some (Except.error e)
  | some (Except.ok s1) =>
    match expandDomainLoop r.domain_roots path_str fuel s1 with
    | none => none
    | some (Except.error e) => some (Except.error e)
    | some (Except.ok s2) =>
      let path := expand_home home s2
      match r.check_boundary fs path with
      | Except.error e => some (Except.error e)
      | Except.ok _ => some (Except.ok path)

/-- Embedding of `AliasResolver::resolve_unchecked`: the same expansions with
no boundary check. -/
def AliasResolver.resolve_unchecked (fuel : Nat) (home : Option String) (r : AliasResolver)
    (path_str : String) : Option (Except AliasError String) :=
  match expandAliasLoop r.aliases path_str fuel path_str with
  | none => none
  | some (Except.error e) => some (Except.error e)
  | some (Except.ok s1) =>
    match expandDomainLoop r.domain_roots path_str fuel s1 with
    | none => none
    | some (Except.error e) => some (Except.error e)
    | some (Except.ok s2) => some (Except.ok (expand_home home s2))

/-- Filesystem instance on which every OS call fails, for the alias-resolver
witnesses (the boundary check's first, purely textual test decides them). -/
def fsNone : FS where
  canonicalize := fun _ => Except.error "No such file or directory (os error 2)"
  openFile := fun _ => Except.error "No such file or directory (os error 2)"
  handleMeta := fun _ => Except.error "No such file or directory (os error 2)"
  pathMeta := fun _ => Except.error "No such file or directory (os error 2)"

/-- The resolver of the source's test configuration: alias `vault` mapping to
`/tmp/test-vault`, domain `personal` with boundary glob `/tmp/test-vault/*`. -/
def r7 : AliasResolver :=
  AliasResolver.new none [("vault", "/tmp/test-vault")] "personal" ["/tmp/test-vault/*"]

/-- Filesystem instance for the C3 counterexample: `/tmp/test` canonicalizes
to itself and nothing else resolves. -/
def fsC3 : FS where
  canonicalize := fun p =>
    if p = "/tmp/test" then Except.ok "/tmp/test"
    else Except.error "No such file or directory (os error 2)"
  openFile := fun _ => Except.error "No such file or directory (os error 2)"
  handleMeta := fun _ => Except.error "No such file or directory (os error 2)"
  pathMeta := fun _ => Except.error "No such file or directory (os error 2)"

end Wardwell

namespace Wardwell

/-- C2 (statement as frozen): any input containing one of the documented
dangerous substrings case-insensitively is rejected with `DangerousPath`, and
any input containing none of them passes.  `check_dangerous_patterns` takes no
filesystem parameter, so no filesystem access is involved. -/
theorem c2_dangerous_patterns (s : String) :
    ((∃ pr ∈ DANGEROUS_PATTERNS, containsSub (lowerStr s).data (lowerStr pr.1).data = true) →
      ∃ r, check_dangerous_patterns s = Except.error (PathError.DangerousPath s r)) ∧
    ((∀ pr ∈ DANGEROUS_PATTERNS, containsSub (lowerStr s).data (lowerStr pr.1).data = false) →
      check_dangerous_patterns s = Except.ok ()) := by
  constructor
  · rintro ⟨pr, hmem, hc⟩
    unfold check_dangerous_patterns
    cases hfind : DANGEROUS_PATTERNS.find?
        (fun q => containsSub (lowerStr s).data (lowerStr q.1).data) with
    | none =>
      exact absurd hc (by simpa using List.find?_eq_none.mp hfind pr hmem)
    | some q =>
      exact ⟨q.2, by simp [hfind]⟩
  · intro hall
    unfold check_dangerous_patterns
    have : DANGEROUS_PATTERNS.find?
        (fun q => containsSub (lowerStr s).data (lowerStr q.1).data) = none := by
      refine List.find?_eq_none.mpr ?_
      intro q hq
      simp [hall q hq]
    simp [this]

/-- Witness for C2: `../etc/passwd` is rejected as a dangerous path and the
ordinary path `/tmp/safe/file.txt` passes. -/
theorem c2_witness :
    check_dangerous_patterns "../etc/passwd" =
      Except.error (PathError.DangerousPath "../etc/passwd" "directory traversal") ∧
    check_dangerous_patterns "/tmp/safe/file.txt" = Except.ok () := by
  refine ⟨?_, (c2_dangerous_patterns "/tmp/safe/file.txt").2 (by decide)⟩
  obtain ⟨r, hr⟩ := (c2_dangerous_patterns "../etc/passwd").1
    ⟨("../", "directory traversal"), by decide, by decide⟩
  rfl

/-- C3 counterexample: the string `/tmp/test-evil/file` does start with the
literal prefix `/tmp/test` of the boundary glob `/tmp/test`, yet
`PathGlob::matches` returns false — `Path::starts_with` compares whole path
components, not string characters. -/
theorem c3_counterexample :
    strStartsWith "/tmp/test-evil/file" "/tmp/test" = true ∧
    PathGlob.matches fsC3 none (PathGlob.mk "/tmp/test") "/tmp/test-evil/file" = false := by
  constructor
  · decide
  · decide

/-- C3 amended: `matches` is true whenever the path starts with the glob's
home-expanded literal prefix as a whole-component path prefix (the prefix
being everything before the first `*`, trailing slashes trimmed); a prefix
match that splits a component, such as `/tmp/test` against
`/tmp/test-evil/file`, does not count. -/
theorem c3_amended_componentwise (fs : FS) (home : Option String) (g : PathGlob) (p : String)
    (h : pathStartsWith p
        (trimTrailingSlashes ((splitStr '*' (g.expand home)).headD (g.expand home))) = true) :
    PathGlob.matches fs home g p = true := by
  unfold PathGlob.matches
  simp only [h]
  split
  · rfl
  · simp

/-- Witness for the amended C3: `/tmp/test` does match `/tmp/test/file`,
whose components extend the boundary's components. -/
theorem c3_amended_witness :
    pathStartsWith "/tmp/test/file"
        (trimTrailingSlashes ((splitStr '*' ((PathGlob.mk "/tmp/test").expand none)).headD
          ((PathGlob.mk "/tmp/test").expand none))) = true ∧
    PathGlob.matches fsC3 none (PathGlob.mk "/tmp/test") "/tmp/test/file" = true :=
  ⟨by decide, c3_amended_componentwise fsC3 none (PathGlob.mk "/tmp/test") "/tmp/test/file"
    (by decide)⟩

/-- C1 (statement as frozen): once the pattern check, the open, the
canonicalization and both metadata reads succeed, `safe_open` rejects with
`TraversalDetected` exactly when the handle identity differs from the
canonical path identity; when they agree, the boundary-glob test is applied
to the canonical path, returning the open handle on a match and
`OutsideBoundary` otherwise. -/
theorem c1_identity_then_boundary (fs : FS) (home : Option String) (path : String)
    (bs : List PathGlob) (file : Nat) (canonical : String) (fdMeta canonicalMeta : Nat × Nat)
    (h1 : check_dangerous_patterns path = Except.ok ())
    (h2 : fs.openFile path = Except.ok file)
    (h3 : fs.canonicalize path = Except.ok canonical)
    (h4 : fs.handleMeta file = Except.ok fdMeta)
    (h5 : fs.pathMeta canonical = Except.ok canonicalMeta) :
    (fdMeta ≠ canonicalMeta →
      safe_open fs home path bs = Except.error (PathError.TraversalDetected path
        "fd does not match canonical path (device/inode mismatch — possible TOCTOU attack)")) ∧
    (fdMeta = canonicalMeta →
      (bs.any (fun b => b.matches fs home canonical) = true →
        safe_open fs home path bs = Except.ok file) ∧
      (bs.any (fun b => b.matches fs home canonical) = false →
        safe_open fs home path bs = Except.error (PathError.OutsideBoundary canonical
          (joinWith ", " (bs.map PathGlob.pattern))))) := by
  unfold safe_open
  simp only [h1, h2, h3, h4, h5]
  constructor
  · intro hne
    have hd : fdMeta.1 ≠ canonicalMeta.1 ∨ fdMeta.2 ≠ canonicalMeta.2 := by
      rcases fdMeta with ⟨a, b⟩
      rcases canonicalMeta with ⟨c, d⟩
      by_contra hcon
      push_neg at hcon
      exact hne (Prod.ext hcon.1 hcon.2)
    rw [if_pos hd]
  · intro heq
    subst heq
    rw [if_neg (by simp)]
    constructor
    · intro hany
      simp [hany]
    · intro hany
      simp [hany]

/-- Witness for C1: with identities agreeing and the boundary `/v/*`
matching, `safe_open` returns the open handle. -/
theorem c1_witness :
    safe_open fs1 none "/v/a.txt" [PathGlob.mk "/v/*"] = Except.ok 7 :=
  ((c1_identity_then_boundary fs1 none "/v/a.txt" [PathGlob.mk "/v/*"] 7 "/v/a.txt" (1, 1) (1, 1)
    rfl rfl rfl rfl rfl).2 rfl).1 (by decide)

/-- C5 (statement as frozen): a path passing the pattern check whose open
fails (nonexistent file) makes `safe_open` return a resolution-failure error
and never `OutsideBoundary`, whatever the boundary globs are. -/
theorem c5_nonexistent_resolution_failure (fs : FS) (home : Option String) (path : String)
    (bs : List PathGlob) (e : String)
    (h1 : check_dangerous_patterns path = Except.ok ())
    (h2 : fs.openFile path = Except.error e) :
    safe_open fs home path bs = Except.error (PathError.ResolutionFailed path e) ∧
    ∀ p b, safe_open fs home path bs ≠ Except.error (PathError.OutsideBoundary p b) := by
  have hmain : safe_open fs home path bs = Except.error (PathError.ResolutionFailed path e) := by
    unfold safe_open
    simp [h1, h2]
  refine ⟨hmain, fun p b hcontra => ?_⟩
  rw [hmain] at hcontra
  simp at hcontra

/-- Witness for C5: opening a missing file under boundary `/v/*` yields the
resolution-failure error. -/
theorem c5_witness :
    safe_open fs5 none "/v/missing.txt" [PathGlob.mk "/v/*"] =
      Except.error (PathError.ResolutionFailed "/v/missing.txt"
        "No such file or directory (os error 2)") :=
  (c5_nonexistent_resolution_failure fs5 none "/v/missing.txt" [PathGlob.mk "/v/*"]
    "No such file or directory (os error 2)" rfl rfl).1

/-- C4 (statement as frozen): `check_path` blocks with the pattern detector's
reason on a dangerous raw string (for every filesystem, so the pattern check
takes precedence over any filesystem outcome); otherwise blocks with a
resolution-failure reason when canonicalization fails; otherwise allows
exactly when `path_allowed` holds of the canonical path, blocking with a
message naming both the original string and its canonical resolution. -/
theorem c4_check_path (fs : FS) (home : Option String) (d : Domain) (s : String) :
    (∀ e, check_dangerous_patterns s = Except.error e →
      check_path fs home d s = EnforcementResult.Block e.message) ∧
    (check_dangerous_patterns s = Except.ok () →
      (∀ e, fs.canonicalize s = Except.error e →
        check_path fs home d s = EnforcementResult.Block
          ("path resolution failed: " ++ (PathError.Resolution s e).message)) ∧
      (∀ c, fs.canonicalize s = Except.ok c →
        (d.path_allowed fs home c = true → check_path fs home d s = EnforcementResult.Allow) ∧
        (d.path_allowed fs home c = false →
          check_path fs home d s = EnforcementResult.Block
            ("path '" ++ s ++ "' is outside domain boundary (resolved: '" ++ c ++ "')")))) := by
  refine ⟨fun e he => ?_, fun hok => ⟨fun e he => ?_, fun c hc => ⟨fun hallow => ?_, fun hallow => ?_⟩⟩⟩
  · unfold check_path
    simp [he]
  · unfold check_path resolve_path
    simp [hok, he]
  · unfold check_path resolve_path
    simp [hok, hc, hallow]
  · unfold check_path resolve_path
    simp [hok, hc, hallow]

/-- Witness for C4: the file `/v/a.txt` inside domain `d1`'s boundary is
allowed. -/
theorem c4_witness : check_path fs1 none d1 "/v/a.txt" = EnforcementResult.Allow :=
  ((((c4_check_path fs1 none d1 "/v/a.txt").2 rfl).2 "/v/a.txt" rfl).1) (by decide)

/-- C9 (statement as frozen): `DomainRegistry::resolve` returns the first
domain in registration order whose glob literal base contains `cwd` — any
returned domain is the first matcher, and whenever the registry decomposes
as earlier non-matching domains followed by a matching one, exactly that
domain is returned — and `none` when no domain's base contains `cwd`. -/
theorem c9_registry_resolve (home : Option String) (ds : List Domain) (cwd : String) :
    (∀ d, DomainRegistry.resolve home ds cwd = some d →
      domainMatchesCwd home d cwd = true ∧
      ∃ before after, ds = before ++ d :: after ∧
        ∀ x ∈ before, domainMatchesCwd home x cwd = false) ∧
    (∀ before d after, ds = before ++ d :: after →
      (∀ x ∈ before, domainMatchesCwd home x cwd = false) →
      domainMatchesCwd home d cwd = true →
      DomainRegistry.resolve home ds cwd = some d) ∧
    ((∀ d ∈ ds, domainMatchesCwd home d cwd = false) →
      DomainRegistry.resolve home ds cwd = none) := by
  refine ⟨?_, ?_, ?_⟩
  · intro d hd
    obtain ⟨hp, as_, bs_, heq, hall⟩ := List.find?_eq_some.mp hd
    refine ⟨hp, as_, bs_, heq, fun x hx => ?_⟩
    have := hall x hx
    simpa using this
  · intro before d after hds hbefore hd
    rw [hds]
    unfold DomainRegistry.resolve
    rw [List.find?_append]
    have h1 : before.find? (fun x => domainMatchesCwd home x cwd) = none :=
      List.find?_eq_none.mpr (fun x hx => by simp [hbefore x hx])
    rw [h1]
    simp [List.find?_cons_of_pos, hd]
  · intro hall
    refine List.find?_eq_none.mpr ?_
    intro d hd
    simp [hall d hd]

/-- Witness for C9: with `work` registered before `personal`, the working
directory `/tmp/work/project` resolves to `work`, obtained through the
positive half of the characterization with the empty earlier segment. -/
theorem c9_witness :
    DomainRegistry.resolve none [dWork, dPersonal] "/tmp/work/project" = some dWork ∧
    domainMatchesCwd none dWork "/tmp/work/project" = true :=
  ⟨(c9_registry_resolve none [dWork, dPersonal] "/tmp/work/project").2.1 [] dWork [dPersonal]
      rfl (by simp) (by decide),
    ((c9_registry_resolve none [dWork, dPersonal] "/tmp/work/project").1 dWork rfl).1⟩

/-- A vault entry that contributes a domain was read successfully, declared
`type: domain` with `confidence: confirmed`, and built that domain. -/
theorem from_vault_step_some (rv : String → Except String VaultFile) (p : String) (d : Domain)
    (h : from_vault_step rv p = some d) :
    ∃ vf, rv p = Except.ok vf ∧ vf.frontmatter.file_type = VaultType.Domain ∧
      vf.frontmatter.confidence = some Confidence.Confirmed ∧
      Domain.from_vault_file vf = Except.ok d := by
  unfold from_vault_step at h
  split at h
  · exact absurd h (by simp)
  · split at h
    · exact absurd h (by simp)
    · rename_i vf hrv
      split at h
      · exact absurd h (by simp)
      · split at h
        · exact absurd h (by simp)
        · rename_i hty hcf
          split at h
          · rename_i d0 hfv
            simp only [Option.some.injEq] at h
            subst h
            exact ⟨vf, hrv, not_not.mp hty, not_not.mp hcf, hfv⟩
          · exact absurd h (by simp)

/-- C6 (statement as frozen): every domain loaded by `from_vault` comes from
a successfully read file declaring `type: domain` and
`confidence: confirmed`; an unreadable file, a wrong-typed or unconfirmed
file, or any entry the step rejects, is skipped without affecting the
domains loaded from the remaining entries. -/
theorem c6_confirmed_only_and_skip (rv : String → Except String VaultFile)
    (entries : List String) :
    (∀ d ∈ from_vault_domains rv entries,
      ∃ vf p, rv p = Except.ok vf ∧ vf.frontmatter.file_type = VaultType.Domain ∧
        vf.frontmatter.confidence = some Confidence.Confirmed ∧
        Domain.from_vault_file vf = Except.ok d) ∧
    (∀ p rest e, rv p = Except.error e →
      from_vault_domains rv (p :: rest) = from_vault_domains rv rest) ∧
    (∀ p rest vf, rv p = Except.ok vf →
      (vf.frontmatter.file_type ≠ VaultType.Domain ∨
        vf.frontmatter.confidence ≠ some Confidence.Confirmed) →
      from_vault_domains rv (p :: rest) = from_vault_domains rv rest) ∧
    (∀ p rest, from_vault_step rv p = none →
      from_vault_domains rv (p :: rest) = from_vault_domains rv rest) := by
  have hskip : ∀ p rest, from_vault_step rv p = none →
      from_vault_domains rv (p :: rest) = from_vault_domains rv rest := by
    intro p rest h
    simp only [from_vault_domains, h]
  refine ⟨?_, ?_, ?_, hskip⟩
  · intro d hd
    induction entries with
    | nil => exact absurd hd (by simp [from_vault_domains])
    | cons p t ih =>
      simp only [from_vault_domains] at hd
      cases hstep : from_vault_step rv p with
      | some d0 =>
        rw [hstep] at hd
        rcases List.mem_cons.mp hd with hd | hd
        · subst hd
          obtain ⟨vf, hvf⟩ := from_vault_step_some rv p d hstep
          exact ⟨vf, p, hvf⟩
        · exact ih hd
      | none =>
        rw [hstep] at hd
        exact ih hd
  · intro p rest e h
    refine hskip p rest ?_
    unfold from_vault_step
    split
    · rfl
    · rw [h]
  · intro p rest vf h hbad
    refine hskip p rest ?_
    unfold from_vault_step
    split
    · rfl
    · rcases hbad with hbad | hbad
      · simp [h, hbad]
      · simp [h, hbad]

/-- Witness for C6: the inferred file is skipped (leaving the confirmed
file's domain intact) and the confirmed file loads as `dTest`. -/
theorem c6_witness :
    from_vault_domains rv6 ["/vault/domains/inferred.md", "/vault/domains/testdomain.md"] =
      from_vault_domains rv6 ["/vault/domains/testdomain.md"] ∧
    from_vault_domains rv6 ["/vault/domains/testdomain.md"] = [dTest] :=
  ⟨((c6_confirmed_only_and_skip rv6 []).2.2.1 "/vault/domains/inferred.md"
      ["/vault/domains/testdomain.md"] vfInferred rfl (Or.inr (by decide))),
    by decide⟩

/-- C7 (statement as frozen): `resolve` processes every alias token before
any domain token — an unclosed alias token fails with `ExpansionFailed`
naming the original input, an unknown alias name fails with `UnknownAlias`
naming exactly that name (both regardless of any domain tokens present); the
domain pass then behaves the same way; with no tokens left a leading `~/` is
expanded; and with alias `vault` mapped to `/tmp/test-vault` and boundary
`/tmp/test-vault/*`, resolving the alias token for `vault` followed by
`/INDEX.md` yields exactly `/tmp/test-vault/INDEX.md`. -/
theorem c7_alias_resolution (fs : FS) (home : Option String) (r : AliasResolver)
    (s : String) (fuel start : Nat) :
    (findSub s.data aliasTok.data = some start →
      findCharFrom s.data start closeBrace = none →
      AliasResolver.resolve (fuel + 1) fs home r s =
        some (Except.error (AliasError.ExpansionFailed s
          "unclosed \x7balias:...\x7d reference"))) ∧
    (∀ stop, findSub s.data aliasTok.data = some start →
      findCharFrom s.data start closeBrace = some stop →
      lookupAssoc r.aliases
        (String.mk ((s.data.drop (start + 7)).take (stop - (start + 7)))) = none →
      AliasResolver.resolve (fuel + 1) fs home r s =
        some (Except.error (AliasError.UnknownAlias
          (String.mk ((s.data.drop (start + 7)).take (stop - (start + 7))))))) ∧
    (findSub s.data aliasTok.data = none →
      findSub s.data domainTok.data = some start →
      findCharFrom s.data start closeBrace = none →
      AliasResolver.resolve (fuel + 1) fs home r s =
        some (Except.error (AliasError.ExpansionFailed s
          "unclosed \x7bdomain:...\x7d reference"))) ∧
    (∀ stop, findSub s.data aliasTok.data = none →
      findSub s.data domainTok.data = some start →
      findCharFrom s.data start closeBrace = some stop →
      lookupAssoc r.domain_roots
        (String.mk ((s.data.drop (start + 8)).take (stop - (start + 8)))) = none →
      AliasResolver.resolve (fuel + 1) fs home r s =
        some (Except.error (AliasError.UnknownDomain
          (String.mk ((s.data.drop (start + 8)).take (stop - (start + 8))))))) ∧
    (findSub s.data aliasTok.data = none →
      findSub s.data domainTok.data = none →
      r.check_boundary fs (expand_home home s) = Except.ok () →
      AliasResolver.resolve (fuel + 1) fs home r s =
        some (Except.ok (expand_home home s))) ∧
    AliasResolver.resolve 2 fsNone none r7 "\x7balias:vault\x7d/INDEX.md" =
      some (Except.ok "/tmp/test-vault/INDEX.md") := by
  refine ⟨fun h1 h2 => ?_, fun stop h1 h2 h3 => ?_, fun h1 h2 h3 => ?_,
    fun stop h1 h2 h3 h4 => ?_, fun h1 h2 h3 => ?_, rfl⟩
  · simp only [AliasResolver.resolve, expandAliasLoop, h1, h2]
  · simp only [AliasResolver.resolve, expandAliasLoop, h1, h2, h3]
  · simp only [AliasResolver.resolve, expandAliasLoop, expandDomainLoop, h1, h2, h3]
  · simp only [AliasResolver.resolve, expandAliasLoop, expandDomainLoop, h1, h2, h3, h4]
  · simp only [AliasResolver.resolve, expandAliasLoop, expandDomainLoop, h1, h2, h3]

/-- Witness for C7: an unknown alias name fails naming that name, and an
unclosed alias token fails with `ExpansionFailed` naming the input. -/
theorem c7_witness :
    AliasResolver.resolve 1 fsNone none r7 "\x7balias:nope\x7d/x" =
      some (Except.error (AliasError.UnknownAlias "nope")) ∧
    AliasResolver.resolve 1 fsNone none r7 "\x7balias:broken" =
      some (Except.error (AliasError.ExpansionFailed "\x7balias:broken"
        "unclosed \x7balias:...\x7d reference")) :=
  ⟨(c7_alias_resolution fsNone none r7 "\x7balias:nope\x7d/x" 0 0).2.1 11 rfl rfl rfl,
    (c7_alias_resolution fsNone none r7 "\x7balias:broken" 0 0).1 rfl rfl⟩

/-- C8 (statement as frozen): whenever the unchecked resolver succeeds with
an expanded path, `resolve` on the same input returns that very path when the
boundary check passes and fails with `OutsideBoundary` when it does not —
the two functions differ exactly in the final boundary check. -/
theorem c8_boundary_gate (fuel : Nat) (fs : FS) (home : Option String) (r : AliasResolver)
    (s p : String)
    (h : AliasResolver.resolve_unchecked fuel home r s = some (Except.ok p)) :
    (r.check_boundary fs p = Except.error (AliasError.OutsideBoundary p) →
      AliasResolver.resolve fuel fs home r s =
        some (Except.error (AliasError.OutsideBoundary p))) ∧
    (r.check_boundary fs p = Except.ok () →
      AliasResolver.resolve fuel fs home r s = some (Except.ok p)) := by
  unfold AliasResolver.resolve_unchecked at h
  split at h
  · exact absurd h (by simp)
  · exact absurd h (by simp)
  · rename_i s1 h1
    split at h
    · exact absurd h (by simp)
    · exact absurd h (by simp)
    · rename_i s2 h2
      simp only [Option.some.injEq, Except.ok.injEq] at h
      subst h
      constructor
      · intro hb
        simp only [AliasResolver.resolve, h1, h2, hb]
      · intro hb
        simp only [AliasResolver.resolve, h1, h2, hb]

/-- Witness for C8: `/etc/passwd` expands outside the `/tmp/test-vault`
boundary, so `resolve` rejects while `resolve_unchecked` succeeds. -/
theorem c8_witness :
    AliasResolver.resolve 1 fsNone none r7 "/etc/passwd" =
      some (Except.error (AliasError.OutsideBoundary "/etc/passwd")) ∧
    AliasResolver.resolve_unchecked 1 none r7 "/etc/passwd" =
      some (Except.ok "/etc/passwd") :=
  ⟨(c8_boundary_gate 1 fsNone none r7 "/etc/passwd" "/etc/passwd" rfl).1 rfl, rfl⟩

/-- The alias loop never produces an `OutsideBoundary` error. -/
theorem expandAliasLoop_not_boundary (al : List (String × String)) (orig : String) :
    ∀ fuel s p, expandAliasLoop al orig fuel s ≠
      some (Except.error (AliasError.OutsideBoundary p)) := by
  intro fuel
  induction fuel with
  | zero =>
    intro s p h
    simp [expandAliasLoop] at h
  | succ n ih =>
    intro s p h
    simp only [expandAliasLoop] at h
    split at h
    · simp at h
    · split at h
      · simp at h
      · split at h
        · simp at h
        · exact ih _ p h

/-- The domain loop never produces an `OutsideBoundary` error. -/
theorem expandDomainLoop_not_boundary (dr : List (String × String)) (orig : String) :
    ∀ fuel s p, expandDomainLoop dr orig fuel s ≠
      some (Except.error (AliasError.OutsideBoundary p)) := by
  intro fuel
  induction fuel with
  | zero =>
    intro s p h
    simp [expandDomainLoop] at h
  | succ n ih =>
    intro s p h
    simp only [expandDomainLoop] at h
    split at h
    · simp at h
    · split at h
      · simp at h
      · split at h
        · simp at h
        · exact ih _ p h

/-- C10 (statement as frozen): with an empty list of domain path globs the
boundary check is skipped — `resolve` agrees with `resolve_unchecked` on
every input and never returns `OutsideBoundary`. -/
theorem c10_empty_paths_no_boundary_check (fuel : Nat) (fs : FS) (home : Option String)
    (aliases : List (String × String)) (domain_name : String) (s : String) :
    AliasResolver.resolve fuel fs home (AliasResolver.new home aliases domain_name []) s =
      AliasResolver.resolve_unchecked fuel home (AliasResolver.new home aliases domain_name []) s ∧
    ∀ p, AliasResolver.resolve fuel fs home (AliasResolver.new home aliases domain_name []) s ≠
      some (Except.error (AliasError.OutsideBoundary p)) := by
  have hempty : ∀ q, (AliasResolver.new home aliases domain_name []).check_boundary fs q =
      Except.ok () := fun q => rfl
  have heq : AliasResolver.resolve fuel fs home (AliasResolver.new home aliases domain_name []) s =
      AliasResolver.resolve_unchecked fuel home (AliasResolver.new home aliases domain_name []) s := by
    cases h1 : expandAliasLoop (AliasResolver.new home aliases domain_name []).aliases s fuel s with
    | none => simp [AliasResolver.resolve, AliasResolver.resolve_unchecked, h1]
    | some e1 =>
      cases e1 with
      | error e => simp [AliasResolver.resolve, AliasResolver.resolve_unchecked, h1]
      | ok s1 =>
        cases h2 : expandDomainLoop (AliasResolver.new home aliases domain_name []).domain_roots
            s fuel s1 with
        | none => simp [AliasResolver.resolve, AliasResolver.resolve_unchecked, h1, h2]
        | some e2 =>
          cases e2 with
          | error e => simp [AliasResolver.resolve, AliasResolver.resolve_unchecked, h1, h2]
          | ok s2 =>
            simp [AliasResolver.resolve, AliasResolver.resolve_unchecked, h1, h2, hempty]
  refine ⟨heq, fun p hcon => ?_⟩
  rw [heq] at hcon
  unfold AliasResolver.resolve_unchecked at hcon
  split at hcon
  · simp at hcon
  · rename_i e h1
    simp only [Option.some.injEq, Except.error.injEq] at hcon
    subst hcon
    exact expandAliasLoop_not_boundary _ _ _ _ p h1
  · rename_i s1 h1
    split at hcon
    · simp at hcon
    · rename_i e h2
      simp only [Option.some.injEq, Except.error.injEq] at hcon
      subst hcon
      exact expandDomainLoop_not_boundary _ _ _ _ p h2
    · simp at hcon

/-- Witness for C10: with no domain paths configured, `resolve` and
`resolve_unchecked` agree on `/etc/passwd`. -/
theorem c10_witness :
    AliasResolver.resolve 1 fsNone none (AliasResolver.new none [] "personal" []) "/etc/passwd" =
      AliasResolver.resolve_unchecked 1 none (AliasResolver.new none [] "personal" [])
        "/etc/passwd" :=
  (c10_empty_paths_no_boundary_check 1 fsNone none [] "personal" "/etc/passwd").1

end Wardwell
